import Mathlib

/-!
# Verification of the WS2812 BLE client (matrix_gui)

Shallow embedding of the protocol codec (`ws2812_ble_test.py`), the device
discovery helper, and the two Streamlit controllers' `send_command`
(`ws2812_config_ui.py` and `03_ws2812_config_ui.py`), together with proofs
of the specification's claims about them.

Bytes are modelled as `Nat` values; Python's `& 0xFF` masking on a
non-negative integer is `% 256`, and `bytes` values are lists of naturals
(each `< 256` where the property needs it).
-/

namespace WS2812

/-- Constant `FRAME_HEADER = 0xAA55` (ws2812_ble_test.py line 22). -/
def FRAME_HEADER : Nat := 0xAA55

/-- Constant `PROTOCOL_VERSION = 0x01` (line 23). -/
def PROTOCOL_VERSION : Nat := 0x01

/-- Constant `MAX_PAYLOAD = 32` (line 24). -/
def MAX_PAYLOAD : Nat := 32

/-- Function `crc_xor(data)` (lines 47-51): XOR fold of all bytes, accumulator 0. -/
def crc_xor (data : List Nat) : Nat :=
  data.foldl (fun checksum b => checksum ^^^ b) 0

/-- Function `build_frame(event, sub_event, sequence, payload)` (lines 54-68).
Returns `none` where Python raises `ValueError("payload too long")`. -/
def build_frame (event sub_event sequence : Nat) (payload : List Nat) :
    Option (List Nat) :=
  if payload.length > MAX_PAYLOAD then none
  else
    let frame : List Nat :=
      [(FRAME_HEADER >>> 8) % 256, FRAME_HEADER % 256, PROTOCOL_VERSION,
       event % 256, sub_event % 256, sequence % 256, payload.length] ++ payload
    some (frame ++ [crc_xor frame])

/-- The failure cases of `parse_ack`, one per `raise ValueError(...)` site. -/
inductive DecodeError where
  | TooShort
  | BadHeader
  | BadVersion
  | LengthMismatch
  | ChecksumMismatch
deriving DecidableEq, Repr

/-- The dict returned by `parse_ack` on success (lines 91-98). -/
structure Ack where
  event : Nat
  sub_event : Nat
  sequence : Nat
  status : Option Nat
  ref_event : Option Nat
  ref_sub : Option Nat
deriving DecidableEq, Repr

deriving instance DecidableEq for Except

/-- Function `parse_ack(data)` (lines 71-98).  Python `data[:-1]` is
`data.take (data.length - 1)`; `payload = data[7:7+data_len]` is
`(data.drop 7).take data_len`; `payload[0] if payload else None` and the
guarded `payload[1]`/`payload[2]` accesses are `List.get?`. -/
def parse_ack (data : List Nat) : Except DecodeError Ack :=
  if data.length < 9 then .error .TooShort
  else if ((data.getD 0 0) <<< 8 ||| data.getD 1 0) ≠ FRAME_HEADER then
    .error .BadHeader
  else if data.getD 2 0 ≠ PROTOCOL_VERSION then .error .BadVersion
  else
    let event := data.getD 3 0
    let sub_event := data.getD 4 0
    let seq := data.getD 5 0
    let data_len := data.getD 6 0
    let payload := (data.drop 7).take data_len
    let checksum_index := 7 + data_len
    if data.length ≤ checksum_index then .error .LengthMismatch
    else if data.getD checksum_index 0 ≠ crc_xor (data.take (data.length - 1))
    then .error .ChecksumMismatch
    else .ok { event := event, sub_event := sub_event, sequence := seq,
               status := payload.get? 0, ref_event := payload.get? 1,
               ref_sub := payload.get? 2 }

/-! ## Device discovery (`discover_device_by_name`, lines 32-44) -/

/-- A scanned advertisement as Bleak reports it: `device.name` may be absent
(Python `None`) and `device.address` is a string. -/
structure BLEDevice where
  name : Option String
  address : String
deriving DecidableEq, Repr

/-- Python truthiness of `device.name`: `None` and the empty string are
falsy, any other string is truthy. -/
def pyTruthy : Option String → Bool
  | none => false
  | some s => !s.isEmpty

/-- Function `discover_device_by_name(device_name, timeout)` (lines 32-44), applied to
the list of advertisements the bounded scan produced.  The loop body is
`if device.name and device.name == device_name: return device.address`, and
falling off the loop returns `None`. -/
def discover_device_by_name (devices : List BLEDevice) (device_name : String) :
    Option String :=
  match devices with
  | [] => none
  | device :: rest =>
      if pyTruthy device.name && (device.name == some device_name) then
        some device.address
      else discover_device_by_name rest device_name

/-- Written from the spec's words for `scan` (spec section 4.2), to be
compared with `discover_device_by_name`: return the address of the first
advertisement whose name equals the requested name exactly; `none` is the
NotFound outcome. -/
def scan_spec (devices : List BLEDevice) (name : String) : Option String :=
  (devices.find? (fun d => d.name == some name)).map (fun d => d.address)

/-! ## The Streamlit controllers' `send_command`

`ws2812_config_ui.py` (`UI0` below) and `03_ws2812_config_ui.py` (`UI03`)
both define `WS2812Controller.send_command`.  The BLE transport is modelled
by the outcome of each awaited operation during one send: whether
`start_notify` and `write_gatt_char` raise, and the notification bytes (if
any) delivered to `ack_handler` during the 2-second wait.  `stop_notify` is
assumed to succeed when called (in `UI03` its failure is caught and only
warned about; no claim depends on it). -/

/-- Field `self.client`: present after a successful `connect_device`, with the
live `is_connected` flag. -/
structure Client where
  is_connected : Bool
deriving DecidableEq, Repr

/-- The controller state `send_command` reads (`self.client`); neither
version mutates any controller field during a send. -/
structure Controller where
  client : Option Client
deriving DecidableEq, Repr

/-- The exceptions a send can raise: `Exception("Device not connected")`,
the `ValueError` from `build_frame`, and transport exceptions escaping the
awaited BLE calls (in `UI03` wrapped as `Exception("Command send error")`). -/
inductive SendErr where
  | NotConnected
  | PayloadTooLong
  | TransportError
deriving DecidableEq, Repr

/-- Behaviour of the BLE transport during one send. -/
structure Transport where
  start_notify_ok : Bool
  write_ok : Bool
  data_received : Option (List Nat)
deriving DecidableEq, Repr

/-- The `st.warning` messages a send can emit. -/
inductive UIWarning where
  | ParseAckFailed
deriving DecidableEq, Repr

/-- Observable outcome of one `send_command` call: the returned value or
raised exception, whether `start_notify` completed (the subscription was
started), the frame handed to `write_gatt_char` (if the write was reached),
whether `stop_notify` was called, and the warnings emitted. -/
structure SendOutcome where
  result : Except SendErr (Option Ack)
  subscribed : Bool
  frame_written : Option (List Nat)
  unsubscribed : Bool
  warnings : List UIWarning
deriving DecidableEq, Repr

/-- Callback `ack_handler` (both files): `ack_received = parse_ack(data)`, with any
exception caught and turned into `st.warning("Failed to parse ACK: ...")`,
leaving `ack_received` as `None`.  Returns the resulting `ack_received`
paired with the warnings emitted. -/
def ack_handler (data : List Nat) : Option Ack × List UIWarning :=
  match parse_ack data with
  | .ok a => (some a, [])
  | .error _ => (none, [.ParseAckFailed])

end WS2812

namespace WS2812.UI0

/-- Method `send_command` of `ws2812_config_ui.py` (lines 74-112): connection
guard, `build_frame(event, subevent, 1, payload)`, then sequential awaits
`start_notify`; `write_gatt_char`; `sleep(2.0)`; `stop_notify` with no
try/finally — an exception in an earlier await skips every later one. -/
def send_command (ctrl : Controller) (event subevent : Nat)
    (payload : List Nat) (tr : Transport) : SendOutcome :=
  match ctrl.client with
  | none =>
      { result := .error .NotConnected, subscribed := false,
        frame_written := none, unsubscribed := false, warnings := [] }
  | some client =>
      if !client.is_connected then
        { result := .error .NotConnected, subscribed := false,
          frame_written := none, unsubscribed := false, warnings := [] }
      else
        match build_frame event subevent 1 payload with
        | none =>
            { result := .error .PayloadTooLong, subscribed := false,
              frame_written := none, unsubscribed := false, warnings := [] }
        | some frame =>
            if !tr.start_notify_ok then
              { result := .error .TransportError, subscribed := false,
                frame_written := none, unsubscribed := false, warnings := [] }
            else if !tr.write_ok then
              { result := .error .TransportError, subscribed := true,
                frame_written := some frame, unsubscribed := false,
                warnings := [] }
            else
              let handled := match tr.data_received with
                | none => (none, [])
                | some d => ack_handler d
              { result := .ok handled.1, subscribed := true,
                frame_written := some frame, unsubscribed := true,
                warnings := handled.2 }

end WS2812.UI0

namespace WS2812.UI03

/-- Method `send_command` of `03_ws2812_config_ui.py` (lines 97-146): same guard
and frame construction, but the awaits run inside `try ... except ...
finally:`; `notify_started` is set after `start_notify` succeeds and the
`finally` block calls `stop_notify` whenever `notify_started` is true, so
unsubscribe also runs on the write-failure exit.  A transport exception is
re-raised wrapped as `Exception("Command send error: ...")`. -/
def send_command (ctrl : Controller) (event subevent : Nat)
    (payload : List Nat) (tr : Transport) : SendOutcome :=
  match ctrl.client with
  | none =>
      { result := .error .NotConnected, subscribed := false,
        frame_written := none, unsubscribed := false, warnings := [] }
  | some client =>
      if !client.is_connected then
        { result := .error .NotConnected, subscribed := false,
          frame_written := none, unsubscribed := false, warnings := [] }
      else
        match build_frame event subevent 1 payload with
        | none =>
            { result := .error .PayloadTooLong, subscribed := false,
              frame_written := none, unsubscribed := false, warnings := [] }
        | some frame =>
            if !tr.start_notify_ok then
              { result := .error .TransportError, subscribed := false,
                frame_written := none, unsubscribed := false, warnings := [] }
            else if !tr.write_ok then
              { result := .error .TransportError, subscribed := true,
                frame_written := some frame, unsubscribed := true,
                warnings := [] }
            else
              let handled := match tr.data_received with
                | none => (none, [])
                | some d => ack_handler d
              { result := .ok handled.1, subscribed := true,
                frame_written := some frame, unsubscribed := true,
                warnings := handled.2 }

end WS2812.UI03

namespace WS2812

/-- A single-bit corruption: XOR bit `k` into the byte at index `i`. -/
def flipBit (data : List Nat) (i k : Nat) : List Nat :=
  data.set i (Nat.xor (data.getD i 0) (2 ^ k))

end WS2812

/-! ## Helper lemmas -/

namespace WS2812

/-- Sanity check against the spec's literal example:
`build_frame(0x10, 0x01, 1, [0x01])` is `AA 55 01 10 01 01 01 01 EE`
and decodes back to its own fields. -/
theorem literal_example_frame :
    build_frame 0x10 0x01 1 [0x01] =
      some [0xAA, 0x55, 0x01, 0x10, 0x01, 0x01, 0x01, 0x01, 0xEE] ∧
    parse_ack [0xAA, 0x55, 0x01, 0x10, 0x01, 0x01, 0x01, 0x01, 0xEE] =
      .ok { event := 0x10, sub_event := 0x01, sequence := 0x01,
            status := some 0x01, ref_event := none, ref_sub := none } := by
  decide

theorem foldl_xor_shift (l : List Nat) (c : Nat) :
    l.foldl (fun a b => a ^^^ b) c = c ^^^ crc_xor l := by
  induction l generalizing c with
  | nil => simp [crc_xor]
  | cons x xs ih =>
      have hx : crc_xor (x :: xs) =
          List.foldl (fun a b => a ^^^ b) (0 ^^^ x) xs := rfl
      rw [List.foldl_cons, hx, ih, ih]
      simp [Nat.xor_assoc]

theorem crc_xor_cons (x : Nat) (l : List Nat) :
    crc_xor (x :: l) = x ^^^ crc_xor l := by
  show List.foldl (fun a b => a ^^^ b) (0 ^^^ x) l = x ^^^ crc_xor l
  rw [foldl_xor_shift]
  simp

theorem crc_xor_append (l₁ l₂ : List Nat) :
    crc_xor (l₁ ++ l₂) = crc_xor l₁ ^^^ crc_xor l₂ := by
  induction l₁ with
  | nil =>
      show crc_xor l₂ = crc_xor [] ^^^ crc_xor l₂
      simp [crc_xor]
  | cons x xs ih =>
      simp only [List.cons_append, crc_xor_cons, ih, Nat.xor_assoc]

/-- XOR-flipping one in-range byte XOR-flips the whole fold by the same
mask. -/
theorem crc_xor_set (l : List Nat) (i b : Nat) (h : i < l.length) :
    crc_xor (l.set i (l.getD i 0 ^^^ b)) = crc_xor l ^^^ b := by
  induction l generalizing i with
  | nil => simp at h
  | cons x xs ih =>
      cases i with
      | zero =>
          simp only [List.set_cons_zero, List.getD_cons_zero, crc_xor_cons]
          rw [Nat.xor_assoc, Nat.xor_comm b (crc_xor xs), ← Nat.xor_assoc]
      | succ i =>
          simp only [List.set_cons_succ, List.getD_cons_succ, crc_xor_cons]
          rw [ih _ (by simpa using h), ← Nat.xor_assoc]

/-- Lemma: `build_frame` in explicit cons form when the payload fits. -/
theorem build_frame_eq (ev sub seq : Nat) (payload : List Nat)
    (h : payload.length ≤ 32) :
    build_frame ev sub seq payload =
      some (0xAA :: 0x55 :: 0x01 :: (ev % 256) :: (sub % 256) :: (seq % 256) ::
            payload.length :: (payload ++
              [crc_xor ([0xAA, 0x55, 0x01, ev % 256, sub % 256, seq % 256,
                         payload.length] ++ payload)])) := by
  unfold build_frame
  rw [if_neg (by simp [MAX_PAYLOAD]; omega)]
  have h1 : (FRAME_HEADER >>> 8) % 256 = 0xAA := by decide
  have h2 : FRAME_HEADER % 256 = 0x55 := by decide
  simp [h1, h2, PROTOCOL_VERSION]

/-- Evaluation of `parse_ack` on a buffer that passes the length, header,
version and payload-length checks. -/
theorem parse_ack_eval (data : List Nat)
    (h9 : ¬ data.length < 9)
    (hh : ((data.getD 0 0) <<< 8 ||| data.getD 1 0) = FRAME_HEADER)
    (hv : data.getD 2 0 = PROTOCOL_VERSION)
    (hl : ¬ data.length ≤ 7 + data.getD 6 0) :
    parse_ack data =
      if data.getD (7 + data.getD 6 0) 0 ≠ crc_xor (data.take (data.length - 1))
      then .error .ChecksumMismatch
      else .ok { event := data.getD 3 0, sub_event := data.getD 4 0,
                 sequence := data.getD 5 0,
                 status := ((data.drop 7).take (data.getD 6 0)).get? 0,
                 ref_event := ((data.drop 7).take (data.getD 6 0)).get? 1,
                 ref_sub := ((data.drop 7).take (data.getD 6 0)).get? 2 } := by
  unfold parse_ack
  rw [if_neg h9, if_neg (not_not_intro hh), if_neg (not_not_intro hv)]
  simp only []
  rw [if_neg hl]

end WS2812

/-! ## Claim theorems -/

namespace WS2812

/-- Claim C6 (confirmed): `build_frame` fails with the ValidationError
(`ValueError("payload too long")`, modelled as `none`) exactly when
`len(payload) > 32`; a 33-byte payload is rejected (the length test is the
first statement of the function, before any frame construction) and a
32-byte payload succeeds.  Purity and determinism hold because the
embedding is a total Lean function of its arguments. -/
theorem c6_build_frame_none_iff_oversize :
    (∀ (ev sub seq : Nat) (payload : List Nat),
        build_frame ev sub seq payload = none ↔ 32 < payload.length) ∧
    build_frame 0 0 0 (List.replicate 33 0) = none ∧
    (build_frame 0 0 0 (List.replicate 32 0)).isSome = true := by
  refine ⟨fun ev sub seq payload => ?_, by decide, by decide⟩
  unfold build_frame
  rcases Nat.lt_or_ge 32 payload.length with h | h
  · rw [if_pos (by simpa [MAX_PAYLOAD] using h)]
    simpa using h
  · rw [if_neg (by simp [MAX_PAYLOAD]; omega)]
    simp
    omega

/-- Claim C8 (confirmed): a send while the session is not connected — the
client was never created, or it is no longer connected — raises
NotConnectedError (`Exception("Device not connected")`) before any I/O:
no frame is built or written, no subscription is started or stopped, in
both controller versions. -/
theorem c8_not_connected_no_io (ctrl : Controller) (ev sub : Nat)
    (payload : List Nat) (tr : Transport)
    (h : ctrl.client = none ∨
         ∃ c, ctrl.client = some c ∧ c.is_connected = false) :
    UI0.send_command ctrl ev sub payload tr =
      { result := .error .NotConnected, subscribed := false,
        frame_written := none, unsubscribed := false, warnings := [] } ∧
    UI03.send_command ctrl ev sub payload tr =
      { result := .error .NotConnected, subscribed := false,
        frame_written := none, unsubscribed := false, warnings := [] } := by
  obtain h | ⟨c, hc, hcon⟩ := h
  · exact ⟨by simp [UI0.send_command, h], by simp [UI03.send_command, h]⟩
  · exact ⟨by simp [UI0.send_command, hc, hcon],
           by simp [UI03.send_command, hc, hcon]⟩

/-- Witness for C8: a freshly constructed controller (`client = None`). -/
theorem c8_not_connected_no_io_witness :
    UI0.send_command ⟨none⟩ 0x10 0x01 [0x01] ⟨true, true, none⟩ =
      { result := .error .NotConnected, subscribed := false,
        frame_written := none, unsubscribed := false, warnings := [] } ∧
    UI03.send_command ⟨none⟩ 0x10 0x01 [0x01] ⟨true, true, none⟩ =
      { result := .error .NotConnected, subscribed := false,
        frame_written := none, unsubscribed := false, warnings := [] } :=
  c8_not_connected_no_io ⟨none⟩ 0x10 0x01 [0x01] ⟨true, true, none⟩
    (Or.inl rfl)

/-- The sequence byte (offset 5) of any frame `build_frame` returns is
`sequence % 256`. -/
theorem build_frame_seq_byte (ev sub seq : Nat) (payload : List Nat)
    (f : List Nat) (h : build_frame ev sub seq payload = some f) :
    f.getD 5 0 = seq % 256 := by
  by_cases hp : payload.length ≤ 32
  · rw [build_frame_eq ev sub seq payload hp] at h
    injection h with h
    subst h
    simp
  · unfold build_frame at h
    rw [if_pos (by simp [MAX_PAYLOAD]; omega)] at h
    cases h

/-- Claim C2 (corrected): both controllers call
`build_frame(event, subevent, 1, payload)` with the sequence hard-coded to
`1`; every frame a send writes carries sequence byte `1`, so sequential
sends do not increment the sequence field. -/
theorem c2_sequence_always_one (ctrl : Controller) (ev sub : Nat)
    (payload : List Nat) (tr : Transport) (frame : List Nat) :
    ((UI0.send_command ctrl ev sub payload tr).frame_written = some frame →
      frame.getD 5 0 = 1) ∧
    ((UI03.send_command ctrl ev sub payload tr).frame_written = some frame →
      frame.getD 5 0 = 1) := by
  have key : ∀ f, build_frame ev sub 1 payload = some f → f.getD 5 0 = 1 :=
    fun f hf => build_frame_seq_byte ev sub 1 payload f hf
  constructor
  all_goals
    intro h
    rcases hctrl : ctrl.client with _ | c
    · simp [UI0.send_command, UI03.send_command, hctrl] at h
    · rcases hcon : c.is_connected with _ | _
      · simp [UI0.send_command, UI03.send_command, hctrl, hcon] at h
      · rcases hbf : build_frame ev sub 1 payload with _ | f
        · simp [UI0.send_command, UI03.send_command, hctrl, hcon, hbf] at h
        · rcases hs : tr.start_notify_ok with _ | _
          · simp [UI0.send_command, UI03.send_command, hctrl, hcon, hbf,
                  hs] at h
          · rcases hw : tr.write_ok with _ | _
            all_goals
              simp [UI0.send_command, UI03.send_command, hctrl, hcon, hbf,
                    hs, hw] at h
              subst h
              exact key f hbf

/-- Witness for C2's theorem: a connected controller whose send writes the
frame `AA 55 01 10 01 01 01 01 EE`; its sequence byte is `1`. -/
theorem c2_sequence_always_one_witness :
    [0xAA, 0x55, 0x01, 0x10, 0x01, 0x01, 0x01, 0x01, 0xEE].getD 5 0 = 1 :=
  (c2_sequence_always_one ⟨some ⟨true⟩⟩ 0x10 0x01 [0x01] ⟨true, true, none⟩
    [0xAA, 0x55, 0x01, 0x10, 0x01, 0x01, 0x01, 0x01, 0xEE]).2 (by decide)

/-- Counterexample to C2 as stated: `send_command` does not mutate any
controller state (the model's `Controller` is exactly what the Python
method reads, and it writes none of it), so a second sequential send is
the same application and emits the same frame: both sends carry sequence
byte `1`, and `1 ≠ (1 + 1) % 256`, contradicting the claimed increment of
exactly 1 mod 256. -/
theorem c2_two_sequential_sends_equal_sequence :
    (UI03.send_command ⟨some ⟨true⟩⟩ 0x10 0x01 [0x01]
       ⟨true, true, none⟩).frame_written =
      some [0xAA, 0x55, 0x01, 0x10, 0x01, 0x01, 0x01, 0x01, 0xEE] ∧
    [0xAA, 0x55, 0x01, 0x10, 0x01, 0x01, 0x01, 0x01, 0xEE].getD 5 0 = 1 ∧
    ((1 : Nat) + 1) % 256 ≠ 1 := by decide

end WS2812

namespace WS2812

/-- Claim C3 (corrected, amended to `03_ws2812_config_ui.py`): in the
revised controller the awaits run under `try/finally` with a
`notify_started` flag, so on every exit path of a send — success, write
failure, or timeout (no notification) — `stop_notify` runs whenever the
subscription was started. -/
theorem c3_ui03_unsubscribe_on_every_exit (ctrl : Controller) (ev sub : Nat)
    (payload : List Nat) (tr : Transport)
    (h : (UI03.send_command ctrl ev sub payload tr).subscribed = true) :
    (UI03.send_command ctrl ev sub payload tr).unsubscribed = true := by
  rcases hctrl : ctrl.client with _ | c
  · simp [UI03.send_command, hctrl] at h
  · rcases hcon : c.is_connected with _ | _
    · simp [UI03.send_command, hctrl, hcon] at h
    · rcases hbf : build_frame ev sub 1 payload with _ | f
      · simp [UI03.send_command, hctrl, hcon, hbf] at h
      · rcases hs : tr.start_notify_ok with _ | _
        · simp [UI03.send_command, hctrl, hcon, hbf, hs] at h
        · rcases hw : tr.write_ok with _ | _ <;>
            simp [UI03.send_command, hctrl, hcon, hbf, hs, hw]

/-- Witness for C3's theorem: a send whose write fails still unsubscribes
in the revised controller. -/
theorem c3_ui03_unsubscribe_on_every_exit_witness :
    (UI03.send_command ⟨some ⟨true⟩⟩ 0x10 0x01 [0x01]
       ⟨true, false, none⟩).unsubscribed = true :=
  c3_ui03_unsubscribe_on_every_exit ⟨some ⟨true⟩⟩ 0x10 0x01 [0x01]
    ⟨true, false, none⟩ (by decide)

/-- Counterexample to C3 as stated: the claim also covers
`ws2812_config_ui.py`, whose `send_command` has no `try/finally`; when
`write_gatt_char` raises after `start_notify` succeeded, the method exits
with the subscription still active — `stop_notify` never runs. -/
theorem c3_ui0_write_failure_leaks_subscription :
    (UI0.send_command ⟨some ⟨true⟩⟩ 0x10 0x01 [0x01]
       ⟨true, false, none⟩).subscribed = true ∧
    (UI0.send_command ⟨some ⟨true⟩⟩ 0x10 0x01 [0x01]
       ⟨true, false, none⟩).unsubscribed = false := by decide

/-- Claim C4 (corrected): a notification whose bytes fail to decode does
not crash the worker — `ack_handler` catches the exception — but the fault
is surfaced only as a `st.warning`; `ack_received` stays `None`, so the
waiting `send()` caller receives `None` (the same result as receiving no
notification at all), not a decode failure. -/
theorem c4_decode_fault_warned_not_returned (ctrl : Controller) (c : Client)
    (hc : ctrl.client = some c) (hcon : c.is_connected = true)
    (ev sub : Nat) (payload : List Nat) (hp : payload.length ≤ 32)
    (d : List Nat) (e : DecodeError) (hd : parse_ack d = .error e) :
    (UI03.send_command ctrl ev sub payload ⟨true, true, some d⟩).result =
      .ok none ∧
    (UI03.send_command ctrl ev sub payload ⟨true, true, some d⟩).warnings =
      [.ParseAckFailed] ∧
    (UI03.send_command ctrl ev sub payload ⟨true, true, some d⟩).result =
      (UI03.send_command ctrl ev sub payload ⟨true, true, none⟩).result := by
  have hbf := build_frame_eq ev sub 1 payload hp
  refine ⟨?_, ?_, ?_⟩ <;>
    simp [UI03.send_command, hc, hcon, hbf, ack_handler, hd]

/-- Witness for C4's theorem: a connected controller receiving the
3-byte garbage notification `01 02 03`. -/
theorem c4_decode_fault_warned_not_returned_witness :
    (UI03.send_command ⟨some ⟨true⟩⟩ 0x10 0x01 [0x01]
       ⟨true, true, some [1, 2, 3]⟩).result = .ok none ∧
    (UI03.send_command ⟨some ⟨true⟩⟩ 0x10 0x01 [0x01]
       ⟨true, true, some [1, 2, 3]⟩).warnings = [.ParseAckFailed] ∧
    (UI03.send_command ⟨some ⟨true⟩⟩ 0x10 0x01 [0x01]
       ⟨true, true, some [1, 2, 3]⟩).result =
      (UI03.send_command ⟨some ⟨true⟩⟩ 0x10 0x01 [0x01]
         ⟨true, true, none⟩).result :=
  c4_decode_fault_warned_not_returned ⟨some ⟨true⟩⟩ ⟨true⟩ rfl rfl
    0x10 0x01 [0x01] (by decide) [1, 2, 3] .TooShort (by decide)

/-- Counterexample to C4 as stated: with a malformed notification the
caller gets `.ok none` — no decode failure is returned, and the result is
byte-for-byte the result of a send that received no notification, so as
far as the caller can see the fault is dropped. -/
theorem c4_decode_fault_not_returned_to_caller :
    (UI0.send_command ⟨some ⟨true⟩⟩ 0x10 0x01 [0x01]
       ⟨true, true, some [1, 2, 3]⟩).result = .ok none ∧
    (UI03.send_command ⟨some ⟨true⟩⟩ 0x10 0x01 [0x01]
       ⟨true, true, some [1, 2, 3]⟩).result = .ok none ∧
    (UI03.send_command ⟨some ⟨true⟩⟩ 0x10 0x01 [0x01]
       ⟨true, true, some [1, 2, 3]⟩).result =
      (UI03.send_command ⟨some ⟨true⟩⟩ 0x10 0x01 [0x01]
         ⟨true, true, none⟩).result := by decide

end WS2812

namespace WS2812

/-- Claim C9 (confirmed): for any non-degenerate requested name (BLE names
are non-empty strings; the code's truthiness test also skips an
empty-string name as "no name"), `discover_device_by_name` returns the
address of the first advertisement whose name equals the requested name
exactly, and `None` — a normal return value, not a raised error — when no
advertisement matches; this is exactly the behaviour `scan_spec` writes
down from the spec. -/
theorem c9_scan_first_exact_match (devices : List BLEDevice) (name : String)
    (h : name ≠ "") :
    discover_device_by_name devices name = scan_spec devices name := by
  have hne : name.isEmpty = false := by
    rcases hb : name.isEmpty with _ | _
    · rfl
    · exact absurd ((String.isEmpty_iff name).mp hb) h
  induction devices with
  | nil => rfl
  | cons d rest ih =>
      by_cases hn : d.name = some name
      · have ht : pyTruthy (some name) = true := by simp [pyTruthy, hne]
        simp [discover_device_by_name, scan_spec, List.find?_cons, ht, hn]
      · have hb : (d.name == some name) = false := by
          simp [beq_iff_eq, hn]
        simp [discover_device_by_name, scan_spec, List.find?_cons, hb, ih,
              Bool.and_eq_true]

/-- Witness for C9: a scan stream with a nameless advertisement, a
non-matching one, and two exact matches; the first match's address is
returned. -/
theorem c9_scan_first_exact_match_witness :
    discover_device_by_name
        [⟨none, "AA:00"⟩, ⟨some "OTHER", "AA:01"⟩,
         ⟨some "HOSHI-MATRIX", "AA:02"⟩, ⟨some "HOSHI-MATRIX", "AA:03"⟩]
        "HOSHI-MATRIX" =
      scan_spec
        [⟨none, "AA:00"⟩, ⟨some "OTHER", "AA:01"⟩,
         ⟨some "HOSHI-MATRIX", "AA:02"⟩, ⟨some "HOSHI-MATRIX", "AA:03"⟩]
        "HOSHI-MATRIX" :=
  c9_scan_first_exact_match
    [⟨none, "AA:00"⟩, ⟨some "OTHER", "AA:01"⟩,
     ⟨some "HOSHI-MATRIX", "AA:02"⟩, ⟨some "HOSHI-MATRIX", "AA:03"⟩]
    "HOSHI-MATRIX" (by decide)

/-- Claim C10 (confirmed): whenever `parse_ack` accepts a buffer whose
declared payload length is short, the optional fields come back `None`
instead of the decode failing: `status` is `None` for an empty payload,
`ref_event` is `None` below 2 payload bytes, `ref_sub` is `None` below 3.
(The accepted-buffer hypothesis bounds the actual payload slice by the
declared length, so the declared length governs all three fields.) -/
theorem c10_short_payload_fields_none (data : List Nat) (a : Ack)
    (h : parse_ack data = .ok a) :
    (data.getD 6 0 = 0 → a.status = none) ∧
    (data.getD 6 0 < 2 → a.ref_event = none) ∧
    (data.getD 6 0 < 3 → a.ref_sub = none) := by
  unfold parse_ack at h
  simp only [] at h
  split at h
  · cases h
  · split at h
    · cases h
    · split at h
      · cases h
      · split at h
        · cases h
        · split at h
          · cases h
          · injection h with h
            subst h
            have hlt : (List.take (data.getD 6 0) (List.drop 7 data)).length ≤
                data.getD 6 0 := by
              rw [List.length_take]
              exact Nat.min_le_left _ _
            refine ⟨fun h0 => ?_, fun h2 => ?_, fun h3 => ?_⟩
            · rw [h0]
              rfl
            · exact List.get?_eq_none.mpr (le_trans hlt (by omega))
            · exact List.get?_eq_none.mpr (le_trans hlt (by omega))

/-- Witness for C10: a 9-byte accepted buffer with declared payload length
0 decodes successfully with all three optional fields `None`. -/
theorem c10_short_payload_fields_none_witness :
    ([0xAA, 0x55, 0x01, 0xFE, 0x00, 0x00, 0x00, 0x00, 0x00].getD 6 0 = 0 →
      (Ack.mk 0xFE 0 0 none none none).status = none) ∧
    ([0xAA, 0x55, 0x01, 0xFE, 0x00, 0x00, 0x00, 0x00, 0x00].getD 6 0 < 2 →
      (Ack.mk 0xFE 0 0 none none none).ref_event = none) ∧
    ([0xAA, 0x55, 0x01, 0xFE, 0x00, 0x00, 0x00, 0x00, 0x00].getD 6 0 < 3 →
      (Ack.mk 0xFE 0 0 none none none).ref_sub = none) :=
  c10_short_payload_fields_none
    [0xAA, 0x55, 0x01, 0xFE, 0x00, 0x00, 0x00, 0x00, 0x00]
    (Ack.mk 0xFE 0 0 none none none) (by decide)

end WS2812

namespace WS2812

/-- Decoding a well-formed frame (correct header, version, declared length
and checksum) with a non-empty payload returns its fields verbatim. -/
theorem parse_ack_wellformed (e s q : Nat) (payload : List Nat)
    (h1 : 1 ≤ payload.length) :
    parse_ack (([0xAA, 0x55, 0x01, e, s, q, payload.length] ++ payload) ++
        [crc_xor ([0xAA, 0x55, 0x01, e, s, q, payload.length] ++ payload)]) =
      .ok { event := e, sub_event := s, sequence := q,
            status := payload.get? 0, ref_event := payload.get? 1,
            ref_sub := payload.get? 2 } := by
  have hWlen : ([0xAA, 0x55, 0x01, e, s, q, payload.length] ++ payload).length
      = 7 + payload.length := by
    simp [List.length_append]
    omega
  have hFlen : (([0xAA, 0x55, 0x01, e, s, q, payload.length] ++ payload) ++
      [crc_xor ([0xAA, 0x55, 0x01, e, s, q, payload.length] ++
        payload)]).length = 8 + payload.length := by
    simp [List.length_append]
    omega
  have g6 : (([0xAA, 0x55, 0x01, e, s, q, payload.length] ++ payload) ++
      [crc_xor ([0xAA, 0x55, 0x01, e, s, q, payload.length] ++
        payload)]).getD 6 0 = payload.length := rfl
  have hck : (([0xAA, 0x55, 0x01, e, s, q, payload.length] ++ payload) ++
      [crc_xor ([0xAA, 0x55, 0x01, e, s, q, payload.length] ++
        payload)]).getD (7 + payload.length) 0 =
      crc_xor ([0xAA, 0x55, 0x01, e, s, q, payload.length] ++ payload) := by
    rw [List.getD_append_right _ _ _ _ (le_of_eq hWlen), hWlen]
    simp
  have hsub1 : 8 + payload.length - 1 = 7 + payload.length := by omega
  have htake : (([0xAA, 0x55, 0x01, e, s, q, payload.length] ++ payload) ++
      [crc_xor ([0xAA, 0x55, 0x01, e, s, q, payload.length] ++
        payload)]).take (7 + payload.length) =
      [0xAA, 0x55, 0x01, e, s, q, payload.length] ++ payload := by
    rw [← hWlen]
    exact List.take_left _ _
  have hpay : ((([0xAA, 0x55, 0x01, e, s, q, payload.length] ++ payload) ++
      [crc_xor ([0xAA, 0x55, 0x01, e, s, q, payload.length] ++
        payload)]).drop 7).take payload.length = payload := by
    rw [show ((([0xAA, 0x55, 0x01, e, s, q, payload.length] ++ payload) ++
        [crc_xor ([0xAA, 0x55, 0x01, e, s, q, payload.length] ++
          payload)]).drop 7) = payload ++
        [crc_xor ([0xAA, 0x55, 0x01, e, s, q, payload.length] ++ payload)]
      from by simp]
    exact List.take_left payload _
  have g0 : (([0xAA, 0x55, 0x01, e, s, q, payload.length] ++ payload) ++
      [crc_xor ([0xAA, 0x55, 0x01, e, s, q, payload.length] ++
        payload)]).getD 0 0 = 0xAA := rfl
  have g1 : (([0xAA, 0x55, 0x01, e, s, q, payload.length] ++ payload) ++
      [crc_xor ([0xAA, 0x55, 0x01, e, s, q, payload.length] ++
        payload)]).getD 1 0 = 0x55 := rfl
  have hhh : ((([0xAA, 0x55, 0x01, e, s, q, payload.length] ++ payload) ++
      [crc_xor ([0xAA, 0x55, 0x01, e, s, q, payload.length] ++
        payload)]).getD 0 0) <<< 8 |||
      (([0xAA, 0x55, 0x01, e, s, q, payload.length] ++ payload) ++
        [crc_xor ([0xAA, 0x55, 0x01, e, s, q, payload.length] ++
          payload)]).getD 1 0 = FRAME_HEADER := by
    rw [g0, g1]
    decide
  have hvv : (([0xAA, 0x55, 0x01, e, s, q, payload.length] ++ payload) ++
      [crc_xor ([0xAA, 0x55, 0x01, e, s, q, payload.length] ++
        payload)]).getD 2 0 = PROTOCOL_VERSION := rfl
  rw [parse_ack_eval _ (by rw [hFlen]; omega) hhh hvv
      (by rw [g6, hFlen]; omega)]
  rw [g6, hFlen, hsub1, htake, hck]
  rw [if_neg (not_not_intro rfl)]
  rw [hpay]
  rfl

end WS2812

namespace WS2812

/-- Claim C1 (corrected, amended to non-empty payloads): for every
byte-valued event, subevent and sequence and every payload with
`1 ≤ len(payload) ≤ 32`, `parse_ack (build_frame ...)` succeeds and
recovers the same event, subevent and sequence. -/
theorem c1_roundtrip_nonempty_payload (ev sub seq : Nat) (payload : List Nat)
    (hev : ev < 256) (hsub : sub < 256) (hseq : seq < 256)
    (hlen1 : 1 ≤ payload.length) (hlen : payload.length ≤ 32) :
    ∃ frame, build_frame ev sub seq payload = some frame ∧
      ∃ a, parse_ack frame = .ok a ∧
        a.event = ev ∧ a.sub_event = sub ∧ a.sequence = seq := by
  refine ⟨_, build_frame_eq ev sub seq payload hlen, ?_⟩
  rw [show (0xAA :: 0x55 :: 0x01 :: (ev % 256) :: (sub % 256) :: (seq % 256) ::
      payload.length :: (payload ++
        [crc_xor ([0xAA, 0x55, 0x01, ev % 256, sub % 256, seq % 256,
                   payload.length] ++ payload)])) =
      (([0xAA, 0x55, 0x01, ev % 256, sub % 256, seq % 256,
         payload.length] ++ payload) ++
        [crc_xor ([0xAA, 0x55, 0x01, ev % 256, sub % 256, seq % 256,
                   payload.length] ++ payload)]) from by simp]
  exact ⟨_,
    parse_ack_wellformed (ev % 256) (sub % 256) (seq % 256) payload hlen1,
    by simp [Nat.mod_eq_of_lt hev], by simp [Nat.mod_eq_of_lt hsub],
    by simp [Nat.mod_eq_of_lt hseq]⟩

/-- Witness for C1's theorem: the spec's literal example frame
`AA 55 01 10 01 01 01 01 EE` round-trips. -/
theorem c1_roundtrip_nonempty_payload_witness :
    ∃ frame, build_frame 0x10 0x01 1 [0x01] = some frame ∧
      ∃ a, parse_ack frame = .ok a ∧
        a.event = 0x10 ∧ a.sub_event = 0x01 ∧ a.sequence = 1 :=
  c1_roundtrip_nonempty_payload 0x10 0x01 1 [0x01] (by decide) (by decide)
    (by decide) (by decide) (by decide)

/-- Counterexample to C1 as stated: the empty payload is a valid input
(`len(payload) = 0 ≤ 32`; the UI's Clear Matrix command sends exactly
this), but its encoded frame is 8 bytes and `parse_ack` rejects anything
shorter than 9 bytes, so the round-trip fails with TooShort. -/
theorem c1_empty_payload_roundtrip_fails :
    build_frame 0x10 0x01 1 [] =
      some [0xAA, 0x55, 0x01, 0x10, 0x01, 0x01, 0x00, 0xEE] ∧
    parse_ack [0xAA, 0x55, 0x01, 0x10, 0x01, 0x01, 0x00, 0xEE] =
      .error .TooShort := by decide

/-- Claim C5 (corrected): for buffers passing the length, header, version
and payload-length checks, `parse_ack` compares the byte at offset
`7 + payload_length` against the XOR of all buffer bytes except the
buffer's final byte (`data[:-1]`) — not except the frame's checksum byte —
and fails ChecksumMismatch exactly when they differ, succeeding otherwise.
The claim's wording coincides with this only when the buffer is exactly
`8 + payload_length` bytes long. -/
theorem c5_checksum_iff_buffer_xor (data : List Nat)
    (h9 : 9 ≤ data.length)
    (hh : ((data.getD 0 0) <<< 8 ||| data.getD 1 0) = FRAME_HEADER)
    (hv : data.getD 2 0 = PROTOCOL_VERSION)
    (hl : 7 + data.getD 6 0 < data.length) :
    (parse_ack data = .error .ChecksumMismatch ↔
      data.getD (7 + data.getD 6 0) 0 ≠
        crc_xor (data.take (data.length - 1))) ∧
    (data.getD (7 + data.getD 6 0) 0 = crc_xor (data.take (data.length - 1)) →
      ∃ a, parse_ack data = .ok a) := by
  have hev := parse_ack_eval data (by omega) hh hv (by omega)
  constructor
  · rw [hev]
    by_cases hc : data.getD (7 + data.getD 6 0) 0 =
        crc_xor (data.take (data.length - 1))
    · rw [if_neg (not_not_intro hc)]
      exact iff_of_false (by simp) (not_not_intro hc)
    · rw [if_pos hc]
      exact iff_of_true rfl hc
  · intro hc
    rw [hev, if_neg (not_not_intro hc)]
    exact ⟨_, rfl⟩

/-- Witness for C5's theorem: the 9-byte frame
`AA 55 01 10 01 01 01 01 EE` passes all the earlier checks, and the
theorem's two conclusions hold of it. -/
theorem c5_checksum_iff_buffer_xor_witness :
    (parse_ack [0xAA, 0x55, 0x01, 0x10, 0x01, 0x01, 0x01, 0x01, 0xEE] =
        .error .ChecksumMismatch ↔
      [0xAA, 0x55, 0x01, 0x10, 0x01, 0x01, 0x01, 0x01, 0xEE].getD
          (7 + [0xAA, 0x55, 0x01, 0x10, 0x01, 0x01, 0x01, 0x01,
                0xEE].getD 6 0) 0 ≠
        crc_xor ([0xAA, 0x55, 0x01, 0x10, 0x01, 0x01, 0x01, 0x01, 0xEE].take
          ([0xAA, 0x55, 0x01, 0x10, 0x01, 0x01, 0x01, 0x01,
            0xEE].length - 1))) ∧
    ([0xAA, 0x55, 0x01, 0x10, 0x01, 0x01, 0x01, 0x01, 0xEE].getD
        (7 + [0xAA, 0x55, 0x01, 0x10, 0x01, 0x01, 0x01, 0x01,
              0xEE].getD 6 0) 0 =
      crc_xor ([0xAA, 0x55, 0x01, 0x10, 0x01, 0x01, 0x01, 0x01, 0xEE].take
        ([0xAA, 0x55, 0x01, 0x10, 0x01, 0x01, 0x01, 0x01,
          0xEE].length - 1)) →
      ∃ a, parse_ack [0xAA, 0x55, 0x01, 0x10, 0x01, 0x01, 0x01, 0x01, 0xEE] =
        .ok a) :=
  c5_checksum_iff_buffer_xor
    [0xAA, 0x55, 0x01, 0x10, 0x01, 0x01, 0x01, 0x01, 0xEE]
    (by decide) (by decide) (by decide) (by decide)

/-- Counterexample to C5 as stated: a 10-byte buffer whose declared
payload length is 1, so its frame occupies the first 9 bytes and one
trailing byte follows.  It passes every earlier check, the trailing byte
of the frame (offset 8, value `FF`) equals the XOR of all prior frame
bytes, yet `parse_ack` fails ChecksumMismatch, because the code XORs
`data[:-1]` — the whole buffer except its last byte — which includes the
checksum byte itself. -/
theorem c5_trailing_bytes_counterexample :
    9 ≤ [0xAA, 0x55, 0x01, 0x00, 0x00, 0x00, 0x01, 0x00, 0xFF,
         0x00].length ∧
    (([0xAA, 0x55, 0x01, 0x00, 0x00, 0x00, 0x01, 0x00, 0xFF,
       0x00].getD 0 0) <<< 8 |||
      [0xAA, 0x55, 0x01, 0x00, 0x00, 0x00, 0x01, 0x00, 0xFF,
       0x00].getD 1 0) = FRAME_HEADER ∧
    [0xAA, 0x55, 0x01, 0x00, 0x00, 0x00, 0x01, 0x00, 0xFF,
     0x00].getD 2 0 = PROTOCOL_VERSION ∧
    7 + [0xAA, 0x55, 0x01, 0x00, 0x00, 0x00, 0x01, 0x00, 0xFF,
         0x00].getD 6 0 <
      [0xAA, 0x55, 0x01, 0x00, 0x00, 0x00, 0x01, 0x00, 0xFF,
       0x00].length ∧
    [0xAA, 0x55, 0x01, 0x00, 0x00, 0x00, 0x01, 0x00, 0xFF, 0x00].getD
        (7 + [0xAA, 0x55, 0x01, 0x00, 0x00, 0x00, 0x01, 0x00, 0xFF,
              0x00].getD 6 0) 0 =
      crc_xor ([0xAA, 0x55, 0x01, 0x00, 0x00, 0x00, 0x01, 0x00, 0xFF,
                0x00].take
        (7 + [0xAA, 0x55, 0x01, 0x00, 0x00, 0x00, 0x01, 0x00, 0xFF,
              0x00].getD 6 0)) ∧
    parse_ack [0xAA, 0x55, 0x01, 0x00, 0x00, 0x00, 0x01, 0x00, 0xFF, 0x00] =
      .error .ChecksumMismatch := by decide

end WS2812

namespace WS2812

theorem getD_set_same (l : List Nat) (i v d : Nat) (h : i < l.length) :
    (l.set i v).getD i d = v := by
  simp [List.getD_eq_getElem?_getD, List.getElem?_set_self',
        List.getElem?_eq_getElem h]

theorem getD_set_other (l : List Nat) (i j v d : Nat) (h : i ≠ j) :
    (l.set i v).getD j d = l.getD j d := by
  simp [List.getD_eq_getElem?_getD, List.getElem?_set_ne h]

theorem take_set_comm (l : List Nat) (i n v : Nat) :
    (l.set i v).take n = (l.take n).set i v := by
  induction l generalizing i n with
  | nil => simp
  | cons x xs ih =>
      cases i with
      | zero =>
          cases n with
          | zero => simp
          | succ n => simp [List.set_cons_zero, List.take_succ_cons]
      | succ i =>
          cases n with
          | zero => simp
          | succ n => simp [List.set_cons_succ, List.take_succ_cons, ih]

theorem xor_ne_self (a b : Nat) (h : b ≠ 0) : a ^^^ b ≠ a := by
  intro hc
  apply h
  have h2 := congrArg (fun x => a ^^^ x) hc
  simpa [← Nat.xor_assoc] using h2

/-- Core of C7: take any checksum-terminated buffer `W ++ [crc_xor W]`
whose prefix `W` carries the right header and version bytes and whose
length byte (offset 6) equals `W.length - 7` — every `build_frame` output
with non-empty payload has this shape.  XOR-corrupting the byte at any
index other than 0, 1, 2 or 6 makes `parse_ack` fail ChecksumMismatch. -/
theorem parse_flip_mismatch (W : List Nat) (i k : Nat)
    (hW9 : 8 ≤ W.length)
    (g0 : W.getD 0 0 = 0xAA) (g1 : W.getD 1 0 = 0x55)
    (g2 : W.getD 2 0 = 0x01) (g6 : W.getD 6 0 = W.length - 7)
    (hi : i < W.length + 1)
    (h0 : i ≠ 0) (h1 : i ≠ 1) (h2 : i ≠ 2) (h6 : i ≠ 6) :
    parse_ack (flipBit (W ++ [crc_xor W]) i k) =
      .error .ChecksumMismatch := by
  have hFlen : (W ++ [crc_xor W]).length = W.length + 1 := by simp
  have hdata : flipBit (W ++ [crc_xor W]) i k =
      (W ++ [crc_xor W]).set i ((W ++ [crc_xor W]).getD i 0 ^^^ 2 ^ k) := rfl
  have hdlen : (flipBit (W ++ [crc_xor W]) i k).length = W.length + 1 := by
    rw [hdata, List.length_set, hFlen]
  have hgd : ∀ j, j ≠ i →
      (flipBit (W ++ [crc_xor W]) i k).getD j 0 =
        (W ++ [crc_xor W]).getD j 0 := by
    intro j hj
    rw [hdata]
    exact getD_set_other _ _ _ _ _ (fun he => hj he.symm)
  have gW : ∀ j, j < W.length →
      (W ++ [crc_xor W]).getD j 0 = W.getD j 0 := by
    intro j hj
    exact List.getD_append _ _ _ _ hj
  have d0 : (flipBit (W ++ [crc_xor W]) i k).getD 0 0 = 0xAA := by
    rw [hgd 0 (fun he => h0 he.symm), gW 0 (by omega), g0]
  have d1 : (flipBit (W ++ [crc_xor W]) i k).getD 1 0 = 0x55 := by
    rw [hgd 1 (fun he => h1 he.symm), gW 1 (by omega), g1]
  have d2 : (flipBit (W ++ [crc_xor W]) i k).getD 2 0 = 0x01 := by
    rw [hgd 2 (fun he => h2 he.symm), gW 2 (by omega), g2]
  have d6 : (flipBit (W ++ [crc_xor W]) i k).getD 6 0 = W.length - 7 := by
    rw [hgd 6 (fun he => h6 he.symm), gW 6 (by omega), g6]
  have hck : 7 + (flipBit (W ++ [crc_xor W]) i k).getD 6 0 = W.length := by
    rw [d6]
    omega
  have hcW : (W ++ [crc_xor W]).getD W.length 0 = crc_xor W := by
    rw [List.getD_append_right _ _ _ _ (le_refl _)]
    simp
  have htk : (flipBit (W ++ [crc_xor W]) i k).take
      ((flipBit (W ++ [crc_xor W]) i k).length - 1) =
      W.set i ((W ++ [crc_xor W]).getD i 0 ^^^ 2 ^ k) := by
    rw [hdlen, hdata]
    have : W.length + 1 - 1 = W.length := by omega
    rw [this, take_set_comm]
    rw [List.take_left]
  have hkne : (2 : Nat) ^ k ≠ 0 := (Nat.pow_pos (by omega)).ne'
  have hne : (flipBit (W ++ [crc_xor W]) i k).getD
      (7 + (flipBit (W ++ [crc_xor W]) i k).getD 6 0) 0 ≠
      crc_xor ((flipBit (W ++ [crc_xor W]) i k).take
        ((flipBit (W ++ [crc_xor W]) i k).length - 1)) := by
    rw [hck, htk]
    by_cases hiW : i = W.length
    · subst hiW
      rw [hdata, getD_set_same _ _ _ _ (by rw [hFlen]; omega)]
      rw [List.set_eq_of_length_le (le_refl _), hcW]
      exact xor_ne_self _ _ hkne
    · rw [hgd _ (fun he => hiW he.symm), hcW]
      have hiW' : i < W.length := by omega
      rw [gW i hiW', crc_xor_set W i _ hiW']
      exact fun he => xor_ne_self (crc_xor W) (2 ^ k) hkne he.symm
  rw [parse_ack_eval _ (by rw [hdlen]; omega)
      (by rw [d0, d1]; decide) d2
      (by rw [hck, hdlen]; omega)]
  rw [if_pos hne]

end WS2812

namespace WS2812

/-- Claim C7 (corrected): flipping a single bit of an encoded frame is
guaranteed to cause ChecksumMismatch only for bytes other than the two
header bytes (offsets 0 and 1), the version byte (offset 2) and the
payload-length byte (offset 6): for every frame built from a non-empty
payload and every bit flip at any other byte, decode fails
ChecksumMismatch.  Flips in bytes 0-2 fail earlier with BadHeader or
BadVersion, and a flip in byte 6 can even make decode succeed (see the
counterexample). -/
theorem c7_flip_noncontrol_byte_checksum_mismatch (ev sub seq : Nat)
    (payload : List Nat) (frame : List Nat) (i k : Nat)
    (hlen1 : 1 ≤ payload.length) (hlen : payload.length ≤ 32)
    (hf : build_frame ev sub seq payload = some frame)
    (hi : i < frame.length)
    (h0 : i ≠ 0) (h1 : i ≠ 1) (h2 : i ≠ 2) (h6 : i ≠ 6) (hk : k < 8) :
    parse_ack (flipBit frame i k) = .error .ChecksumMismatch := by
  rw [build_frame_eq ev sub seq payload hlen] at hf
  injection hf with hf
  subst hf
  rw [show (0xAA :: 0x55 :: 0x01 :: (ev % 256) :: (sub % 256) ::
      (seq % 256) :: payload.length :: (payload ++
        [crc_xor ([0xAA, 0x55, 0x01, ev % 256, sub % 256, seq % 256,
                   payload.length] ++ payload)])) =
      ([0xAA, 0x55, 0x01, ev % 256, sub % 256, seq % 256, payload.length] ++
        payload) ++
        [crc_xor ([0xAA, 0x55, 0x01, ev % 256, sub % 256, seq % 256,
                   payload.length] ++ payload)] from by simp] at hi ⊢
  apply parse_flip_mismatch _ _ k _ _ _ _ _ _ h0 h1 h2 h6
  · simp
    omega
  · rfl
  · rfl
  · rfl
  · rw [show ([0xAA, 0x55, 0x01, ev % 256, sub % 256, seq % 256,
        payload.length] ++ payload).getD 6 0 = payload.length from rfl]
    simp
  · simpa using hi

/-- Witness for C7's theorem: flipping bit 0 of the checksum byte of the
spec's literal example frame fails ChecksumMismatch. -/
theorem c7_flip_noncontrol_byte_checksum_mismatch_witness :
    parse_ack
        (flipBit [0xAA, 0x55, 0x01, 0x10, 0x01, 0x01, 0x01, 0x01, 0xEE] 8 0) =
      .error .ChecksumMismatch :=
  c7_flip_noncontrol_byte_checksum_mismatch 0x10 0x01 1 [0x01]
    [0xAA, 0x55, 0x01, 0x10, 0x01, 0x01, 0x01, 0x01, 0xEE] 8 0
    (by decide) (by decide) (by decide) (by decide) (by decide) (by decide)
    (by decide) (by decide) (by decide)

/-- Counterexample to C7 as stated: flip bit 0 of the payload-length byte
of the encoded frame for payload `00 FC 00`.  The corrupted buffer
declares payload length 2, so `parse_ack` reads the third payload byte
(`00`) as the checksum; the XOR of `data[:-1]` also comes to `00`, and
decode succeeds (with a truncated payload) instead of failing
ChecksumMismatch. -/
theorem c7_length_byte_flip_decodes_ok :
    build_frame 0x00 0x00 0x00 [0x00, 0xFC, 0x00] =
      some [0xAA, 0x55, 0x01, 0x00, 0x00, 0x00, 0x03, 0x00, 0xFC, 0x00,
            0x01] ∧
    flipBit [0xAA, 0x55, 0x01, 0x00, 0x00, 0x00, 0x03, 0x00, 0xFC, 0x00,
             0x01] 6 0 =
      [0xAA, 0x55, 0x01, 0x00, 0x00, 0x00, 0x02, 0x00, 0xFC, 0x00, 0x01] ∧
    parse_ack [0xAA, 0x55, 0x01, 0x00, 0x00, 0x00, 0x02, 0x00, 0xFC, 0x00,
               0x01] =
      .ok { event := 0, sub_event := 0, sequence := 0, status := some 0,
            ref_event := some 0xFC, ref_sub := none } := by decide

end WS2812
